import Mathlib

/-!
Shallow embedding of the e-commerce data AI agent (a single-page browser
application, App.jsx). The embedding covers the parts of the program the
verified claims are about:

  - the per-value CSV coercion and the per-dataset transactional bulk
    insert performed by parseAndInsert,
  - the three-dataset loading pass loadDataIntoDB and the ready flag,
  - the question-answering pipeline askQuestion: sentinel check, SQL
    execution outcome handling, second LLM round trip and chart
    validation.

External collaborators are modelled at their interface: the PapaParse CSV
parser is modelled for unquoted newline-separated input with its header
and skipEmptyLines options and its field-count error reporting; the
sql.js engine is modelled by explicit table state with BEGIN/COMMIT/
ROLLBACK snapshot semantics, prepare-time unknown-column errors and
run-time composite-primary-key conflict errors; the two LLM round trips
are oracle inputs. JavaScript numbers are modelled by exact scaled
decimals, which is faithful on the decimal-numeral value domain the
datasets use; toUpperCase and trim are modelled on the ASCII range.
-/

/-- Exact decimal number m times ten to the e, the model of the JavaScript
float produced by parseFloat on a decimal numeral. Values are kept in a
normal form (no trailing zero in the mantissa, zero has exponent zero) so
that structural equality is value equality. -/
structure JsNumber where
  m : Int
  e : Int
deriving DecidableEq, Repr

/-- Trailing decimal zeros stripped from a mantissa, with how many were
removed; the first argument is recursion fuel. -/
def stripTensAux : Nat → Nat → Nat × Nat
  | 0, m => (m, 0)
  | fuel + 1, m =>
    if m ≠ 0 ∧ m % 10 = 0 then
      let p := stripTensAux fuel (m / 10)
      (p.1, p.2 + 1)
    else (m, 0)

/-- Normalized decimal from a sign, a natural mantissa and an exponent. -/
def mkJsNumber (neg : Bool) (mant : Nat) (e : Int) : JsNumber :=
  if mant = 0 then ⟨0, 0⟩
  else
    let p := stripTensAux mant mant
    ⟨if neg then -(p.1 : Int) else (p.1 : Int), e + p.2⟩

/-- Value stored in a table cell: the source stores JavaScript numbers,
strings or null through the sql.js prepared statement. -/
inductive SqlValue where
  | num (n : JsNumber)
  | text (s : String)
  | null
deriving DecidableEq, Repr

/-- Model of the JavaScript toUpperCase on the ASCII range. -/
def upperString (s : String) : String := ⟨s.data.map Char.toUpper⟩

/-- Whitespace test used by the trim model. -/
def isSpaceChar (c : Char) : Bool := c = ' ' ∨ c = '\t' ∨ c = '\n' ∨ c = '\r'

/-- Model of the JavaScript trim on the ASCII range. -/
def trimString (s : String) : String :=
  ⟨((s.data.dropWhile isSpaceChar).reverse.dropWhile isSpaceChar).reverse⟩

/-- Digits taken greedily from the head of a character list, with the rest. -/
def takeDigits : List Char → List Char × List Char
  | [] => ([], [])
  | c :: cs =>
    if c.isDigit then
      let p := takeDigits cs
      (c :: p.1, p.2)
    else ([], c :: cs)

/-- Natural number denoted by a list of decimal digit characters. -/
def natOfDigits (cs : List Char) : Nat :=
  cs.foldl (fun n c => 10 * n + (c.toNat - 48)) 0

/-- Unsigned decimal mantissa: digits, optionally a dot and more digits.
Returns the combined digit value, the fraction length and the unconsumed
rest, or none when no digit at all is present. -/
def parseMantissa (cs : List Char) : Option (Nat × Nat × List Char) :=
  let p := takeDigits cs
  match p.2 with
  | '.' :: r2 =>
    let f := takeDigits r2
    if p.1 = [] ∧ f.1 = [] then none
    else some (natOfDigits (p.1 ++ f.1), f.1.length, f.2)
  | _ => if p.1 = [] then none else some (natOfDigits p.1, 0, p.2)

/-- Exponent tail after the letter e: optional sign then digits, which must
consume the whole rest. -/
def parseExpTail (cs : List Char) : Option Int :=
  let sd : Int × List Char :=
    match cs with
    | '+' :: r => (1, r)
    | '-' :: r => (-1, r)
    | r => (1, r)
  let p := takeDigits sd.2
  if p.1 = [] ∨ p.2 ≠ [] then none
  else some (sd.1 * (natOfDigits p.1 : Int))

/-- Character test for the radix letters of JavaScript 0x / 0b / 0o numerals. -/
def radixDigitOk (radix : Char) (c : Char) : Bool :=
  if radix = 'x' ∨ radix = 'X' then c.isDigit ∨ ('a' ≤ c ∧ c ≤ 'f') ∨ ('A' ≤ c ∧ c ≤ 'F')
  else if radix = 'b' ∨ radix = 'B' then c = '0' ∨ c = '1'
  else '0' ≤ c ∧ c ≤ '7'

/-- Signed decimal numeral with optional exponent, consuming the whole list. -/
def jsNumDecimal (cs : List Char) : Option JsNumber :=
  let sc : Bool × List Char :=
    match cs with
    | '+' :: r => (false, r)
    | '-' :: r => (true, r)
    | r => (false, r)
  match parseMantissa sc.2 with
  | none => none
  | some (mant, fracLen, r1) =>
    match r1 with
    | [] => some (mkJsNumber sc.1 mant (-(fracLen : Int)))
    | e :: r2 =>
      if e = 'e' ∨ e = 'E' then
        match parseExpTail r2 with
        | some k => some (mkJsNumber sc.1 mant (k - (fracLen : Int)))
        | none => none
      else none

/-- Model of the numeric test and conversion the source applies to a scalar:
a value is numeric when parseFloat of it is not NaN and the whole string
coerces to a finite number, and the stored number is the parseFloat value.
On a decimal numeral both agree and give the denoted value; on a 0x / 0b /
0o numeral the whole string is finite but parseFloat stops after the
leading 0, so the stored value is 0. -/
def jsNumValue (s : String) : Option JsNumber :=
  match (trimString s).data with
  | '0' :: r :: rest =>
    if r = 'x' ∨ r = 'X' ∨ r = 'b' ∨ r = 'B' ∨ r = 'o' ∨ r = 'O' then
      if rest ≠ [] ∧ rest.all (radixDigitOk r) then some ⟨0, 0⟩ else none
    else
      jsNumDecimal ('0' :: r :: rest)
  | cs => jsNumDecimal cs

/-- Per-scalar coercion applied by parseAndInsert to every CSV cell before
it is bound to the prepared insert statement. Mirrors the source exactly:
uppercase TRUE and FALSE literals first, then the blank check, then the
numeric check, else the text is kept. No column type is consulted. -/
def coerceValue (value : String) : SqlValue :=
  if upperString value = "TRUE" then .num ⟨1, 0⟩
  else if upperString value = "FALSE" then .num ⟨0, 0⟩
  else if trimString value = "" then .null
  else
    match jsNumValue value with
    | some q => .num q
    | none => .text value

/-- Table row: one stored value per schema column, in schema order. -/
abbrev Row := List SqlValue

/-- Table store of the in-browser database: name to rows, kept in creation
order like the sql.js table list. -/
abbrev Tables := List (String × List Row)

/-- Rows of a table by name; a missing table reads as empty (reads of a
missing table never happen on the code paths the claims follow). -/
def getRows : Tables → String → List Row
  | [], _ => []
  | (m, rs) :: t, n => if m = n then rs else getRows t n

/-- Rows of a table replaced, the table appended when absent. -/
def setRows : Tables → String → List Row → Tables
  | [], n, rows => [(n, rows)]
  | (m, old) :: t, n, rows =>
    if m = n then (n, rows) :: t else (m, old) :: setRows t n rows

/-- TABLE_SCHEMAS of the source: for each of the three fixed tables, the
ordered column list and the composite primary key of its CREATE TABLE. -/
def TABLE_SCHEMAS : List (String × List String × List String) :=
  [ ("product_ad_sales_metrics",
      (["date", "item_id", "ad_sales", "impressions", "ad_spend", "clicks", "units_sold"],
       ["date", "item_id"])),
    ("product_total_sales_metrics",
      (["date", "item_id", "total_sales", "total_units_ordered"],
       ["date", "item_id"])),
    ("product_eligibility",
      (["eligibility_datetime_utc", "item_id", "eligibility", "message"],
       ["eligibility_datetime_utc", "item_id"])) ]

/-- Column list of a schema table. -/
def tableColumns (name : String) : Option (List String) :=
  match TABLE_SCHEMAS.find? (fun p => p.1 = name) with
  | some p => some p.2.1
  | none => none

/-- Primary key columns of a schema table. -/
def tablePK (name : String) : List String :=
  match TABLE_SCHEMAS.find? (fun p => p.1 = name) with
  | some p => p.2.2
  | none => []

/-- CREATE TABLE IF NOT EXISTS: the table is added empty when absent and
left untouched when present. -/
def createTable (ts : Tables) (n : String) : Tables :=
  if (ts.map Prod.fst).contains n then ts else ts ++ [(n, [])]

/-- The loop over TABLE_SCHEMAS that loadDataIntoDB runs before ingesting. -/
def createAllTables (ts : Tables) : Tables :=
  (TABLE_SCHEMAS.map Prod.fst).foldl createTable ts

/-- Database handle: committed tables plus the snapshot taken by an open
BEGIN TRANSACTION, the model of the sql.js rollback journal. -/
structure DB where
  tables : Tables
  txSnapshot : Option Tables
deriving DecidableEq, Repr

/-- Model of exec BEGIN TRANSACTION: the current tables are snapshotted. -/
def execBegin (db : DB) : DB := { db with txSnapshot := some db.tables }

/-- Model of exec COMMIT: the snapshot is discarded, changes stay. -/
def execCommit (db : DB) : DB := { db with txSnapshot := none }

/-- Model of exec ROLLBACK: the snapshot is restored. -/
def execRollback (db : DB) : DB :=
  { tables := db.txSnapshot.getD db.tables, txSnapshot := none }

/-- First binding of a column in an association list built from the insert
column list, the model of reading one field of a row object. -/
def lookupVal : List (String × SqlValue) → String → Option SqlValue
  | [], _ => none
  | (c, v) :: t, n => if c = n then some v else lookupVal t n

/-- Full stored row in schema column order: named columns take the bound
value, unnamed columns are NULL, as the engine completes an INSERT that
names a subset of the columns. -/
def mkFullRow (schemaCols cols : List String) (vals : List SqlValue) : Row :=
  schemaCols.map (fun c =>
    match lookupVal (cols.zip vals) c with
    | some v => v
    | none => SqlValue.null)

/-- Value of a row at a named schema column. -/
def colValue (schemaCols : List String) (r : Row) (c : String) : SqlValue :=
  match schemaCols.findIdx? (fun x => x = c) with
  | some i => r.getD i SqlValue.null
  | none => SqlValue.null

/-- Composite primary key conflict test of the engine: a conflict needs
every key column equal and non NULL, since the engine treats NULL key
parts as distinct. -/
def pkConflict (schemaCols pk : List String) (newRow oldRow : Row) : Bool :=
  pk.all (fun c =>
    decide (colValue schemaCols oldRow c = colValue schemaCols newRow c
            ∧ colValue schemaCols oldRow c ≠ SqlValue.null))

/-- Model of db.prepare of the dynamically built INSERT statement: the
engine rejects it at prepare time when the table is unknown or a named
column is not in the table schema. -/
def prepareInsert (tableName : String) (cols : List String) : Except String Unit :=
  match tableColumns tableName with
  | none => .error ("no such table: " ++ tableName)
  | some schemaCols =>
    match cols.find? (fun c => !(schemaCols.contains c)) with
    | some c => .error ("table " ++ tableName ++ " has no column named " ++ c)
    | none => .ok ()

/-- Model of stmt.run on one row of bound values: the full row is stored
unless it collides with an existing row on the primary key. -/
def stmtRun (tableName : String) (cols : List String) (vals : List SqlValue)
    (db : DB) : Except String DB :=
  match tableColumns tableName with
  | none => .error ("no such table: " ++ tableName)
  | some schemaCols =>
    let newRow := mkFullRow schemaCols cols vals
    let existing := getRows db.tables tableName
    if existing.any (fun old => pkConflict schemaCols (tablePK tableName) newRow old) then
      .error ("UNIQUE constraint failed: " ++ tableName)
    else
      .ok { db with tables := setRows db.tables tableName (existing ++ [newRow]) }

/-- The for loop of parseAndInsert: each raw row is coerced per scalar and
run through the prepared statement; the first failure aborts the loop and
reports the database state it happened in. -/
def insertLoop (tableName : String) (cols : List String) :
    List (List String) → DB → Except (String × DB) DB
  | [], db => .ok db
  | r :: rest, db =>
    match stmtRun tableName cols (r.map coerceValue) db with
    | .error m => .error (m, db)
    | .ok db1 => insertLoop tableName cols rest db1

/-- Error raised by one dataset ingestion, as rejected by parseAndInsert. -/
inductive IngestError where
  | parseFailure (tableName msg : String)
  | insertFailure (tableName msg : String)
deriving DecidableEq, Repr

/-- User-visible message of an ingestion error, as built by the reject
calls of parseAndInsert. -/
def ingestErrMsg : IngestError → String
  | .parseFailure t m => "CSV parsing error for " ++ t ++ ": " ++ m
  | .insertFailure t m => "Error inserting data into " ++ t ++ ": " ++ m

/-- Characters split on a separator, the model of line and field splitting. -/
def splitOnChar (sep : Char) (cs : List Char) : List (List Char) :=
  match cs with
  | [] => [[]]
  | c :: rest =>
    let p := splitOnChar sep rest
    if c = sep then [] :: p
    else
      match p with
      | [] => [[c]]
      | h :: t => (c :: h) :: t

/-- Model of Papa.parse with header and skipEmptyLines for unquoted input:
empty lines are dropped, the first line is the header, every other line is
one record; a record whose field count differs from the header makes the
parse report an error, which the source turns into a rejection. -/
def papaParse (csv : String) : Except String (List String × List (List String)) :=
  let lines := (splitOnChar '\n' csv.data).filter (fun l => l ≠ [])
  match lines with
  | [] => .error "UndetectableDelimiter"
  | header :: rest =>
    let hcols := (splitOnChar ',' header).map (fun l => (⟨l⟩ : String))
    let rows := rest.map (fun l => (splitOnChar ',' l).map (fun f => (⟨f⟩ : String)))
    if rows.any (fun r => r.length ≠ hcols.length) then
      .error "TooFewFields"
    else
      .ok (hcols, rows)

/-- Model of parseAndInsert of the source: parse the CSV, treat a header
only input as a warning no-op, then insert every row inside one
transaction, committing on success and rolling back on the first insert
error. The returned pair is the database afterwards and the rejection, if
any. -/
def parseAndInsert (csvContent tableName : String) (db : DB) :
    DB × Option IngestError :=
  match papaParse csvContent with
  | .error m => (db, some (.parseFailure tableName m))
  | .ok (header, data) =>
    if data.isEmpty then (db, none)
    else
      let db1 := execBegin db
      match prepareInsert tableName header with
      | .error m => (execRollback db1, some (.insertFailure tableName m))
      | .ok _ =>
        match insertLoop tableName header data db1 with
        | .error (m, dbMid) => (execRollback dbMid, some (.insertFailure tableName m))
        | .ok db2 => (execCommit db2, none)

/-- JavaScript truthiness of an optional string state field: null and the
empty string are falsy. -/
def truthyStr : Option String → Bool
  | none => false
  | some s => s ≠ ""

/-- The three ingested dataset tables in source order. -/
def adTableName : String := "product_ad_sales_metrics"

/-- Second dataset table of the fixed loading order. -/
def totalTableName : String := "product_total_sales_metrics"

/-- Third dataset table of the fixed loading order. -/
def eligTableName : String := "product_eligibility"

/-- The try block of loadDataIntoDB after the guards: create the tables,
then ingest the three datasets strictly in order, stopping at the first
rejection; the result is the database afterwards and the first error. -/
def loadAll (db : DB) (ad total elig : String) : DB × Option IngestError :=
  let db0 : DB := { db with tables := createAllTables db.tables }
  match parseAndInsert ad adTableName db0 with
  | (db1, some e) => (db1, some e)
  | (db1, none) =>
    match parseAndInsert total totalTableName db1 with
    | (db2, some e) => (db2, some e)
    | (db2, none) => parseAndInsert elig eligTableName db2

/-- Component state of the App relevant to loading and readiness. The
isLoading flag and the typing animation are presentation details left out
of the model. -/
structure AppState where
  db : Option DB
  productAdSalesCsv : Option String
  productTotalSalesCsv : Option String
  productEligibilityCsv : Option String
  isDatabaseReady : Bool
  error : String
  dbStatus : String
deriving DecidableEq, Repr

/-- Model of loadDataIntoDB: the missing-database and missing-file guards
return early; otherwise the error is cleared, the three datasets are
ingested in order, and only a fully successful pass sets the ready flag.
A failing pass sets the error and status but leaves the ready flag as it
was, exactly as the catch block of the source does. -/
def loadDataIntoDB (s : AppState) : AppState :=
  match s.db with
  | none => { s with error := "Database not initialized." }
  | some db0 =>
    if truthyStr s.productAdSalesCsv && truthyStr s.productTotalSalesCsv
        && truthyStr s.productEligibilityCsv then
      let s1 := { s with error := "", dbStatus := "Loading data into database..." }
      match loadAll db0 (s.productAdSalesCsv.getD "") (s.productTotalSalesCsv.getD "")
          (s.productEligibilityCsv.getD "") with
      | (db1, some e) =>
        { s1 with db := some db1,
                  error := "Error loading data: " ++ ingestErrMsg e,
                  dbStatus := "Data loading failed." }
      | (db1, none) =>
        { s1 with db := some db1, isDatabaseReady := true,
                  dbStatus := "All data loaded successfully!" }
    else { s with error := "Please upload all three CSV files." }

/-- One result set of db.exec: column names and value rows. -/
structure ResultSet where
  columns : List String
  values : List Row
deriving DecidableEq, Repr

/-- Row objects built by askQuestion from one result set: each row is the
column list zipped with its values. -/
def toQueryRows (rs : ResultSet) : List (List (String × SqlValue)) :=
  rs.values.map (fun row => rs.columns.zip row)

/-- First LLM round trip of askQuestion, abstracted at the point where the
response envelope has been read: either no candidate part was present,
the part was not valid JSON, or a sql_query string was extracted. -/
inductive Llm1Response where
  | noCandidates
  | badJson (raw : String)
  | ok (sql_query : String)
deriving DecidableEq, Repr

/-- Visualization object of the second LLM response; null fields are none. -/
structure Viz where
  chart_type : Option String
  labels : Option String
  values : Option String
deriving DecidableEq, Repr

/-- Second LLM round trip of askQuestion, abstracted at the point where the
response envelope has been read. -/
inductive Llm2Response where
  | noCandidates
  | badJson
  | parsed (answer : String) (visualization : Option Viz)
deriving DecidableEq, Repr

/-- Chart data handed to the chart renderer on acceptance. -/
structure ChartData where
  labels : List SqlValue
  dataValues : List SqlValue
  seriesLabel : String
deriving DecidableEq, Repr

/-- Observable outcome of one askQuestion run: which SQL was executed,
whether the second LLM request was issued, the typed-out answer, the
error banner and the accepted chart. -/
structure AskTrace where
  executedSql : List String
  llm2Called : Bool
  answer : Option String
  errorMsg : Option String
  chartType : Option String
  chartData : Option ChartData
deriving DecidableEq, Repr

/-- Substring test on character lists, the model of String.includes. -/
def headMatch : List Char → List Char → Bool
  | [], _ => true
  | _ :: _, [] => false
  | a :: as, b :: bs => a = b && headMatch as bs

/-- Containment of a needle anywhere in a haystack. -/
def charsContain (hay needle : List Char) : Bool :=
  match hay with
  | [] => needle.isEmpty
  | _ :: t => headMatch needle hay || charsContain t needle

/-- Model of the JavaScript includes test on strings. -/
def jsIncludes (s sub : String) : Bool := charsContain s.data sub.data

/-- The fixed cannot-answer message typed out on the sentinel. -/
def cannotAnswerMsg : String :=
  "I\x27m sorry, I cannot answer that question with the available data."

/-- The fixed message typed out when the query returns no result set. -/
def noResultsMsg : String :=
  "The query executed successfully but returned no results."

/-- The warning shown when a suggested chart fails column validation. -/
def chartWarningMsg : String :=
  "AI suggested a visualization, but the data columns for it were not found. Try a different question or examine your data."

/-- Truth of the defined-and-not-null check the source runs per projected
chart cell. -/
def definedNonNull : Option SqlValue → Bool
  | some v => v ≠ SqlValue.null
  | none => false

/-- Model of askQuestion after its input guards, driven by the extracted
first LLM response, the engine (db.exec as an oracle from SQL text to an
error or a result set list, where a zero row query yields the empty
list), and the second LLM response. Mirrors the source control flow:
sentinel check before execution, zero-row short circuit before the second
round trip, answer typing before chart validation, and silent chart skip
when the visualization fields are not all truthy. -/
def askQuestion (llm1 : Llm1Response)
    (exec : String → Except String (List ResultSet))
    (llm2 : Llm2Response) : AskTrace :=
  match llm1 with
  | .noCandidates =>
    { executedSql := [], llm2Called := false, answer := none,
      errorMsg := some "Failed to get SQL query from AI. Please try again.",
      chartType := none, chartData := none }
  | .badJson raw =>
    { executedSql := [], llm2Called := false, answer := none,
      errorMsg := some ("AI returned invalid JSON for SQL: " ++ raw),
      chartType := none, chartData := none }
  | .ok sqlQuery =>
    if jsIncludes (upperString sqlQuery) "N/A" then
      { executedSql := [], llm2Called := false, answer := some cannotAnswerMsg,
        errorMsg := none, chartType := none, chartData := none }
    else
      match exec sqlQuery with
      | .error m =>
        { executedSql := [sqlQuery], llm2Called := false, answer := none,
          errorMsg := some ("SQL execution error: " ++ m ++ ". Generated SQL: " ++ sqlQuery),
          chartType := none, chartData := none }
      | .ok [] =>
        { executedSql := [sqlQuery], llm2Called := false, answer := some noResultsMsg,
          errorMsg := none, chartType := none, chartData := none }
      | .ok (rs :: _) =>
        let queryResults := toQueryRows rs
        match llm2 with
        | .noCandidates =>
          { executedSql := [sqlQuery], llm2Called := true, answer := none,
            errorMsg := some "Failed to get a response from AI. Please try again.",
            chartType := none, chartData := none }
        | .badJson =>
          { executedSql := [sqlQuery], llm2Called := true, answer := none,
            errorMsg := some "AI returned an unreadable response.",
            chartType := none, chartData := none }
        | .parsed answerText viz =>
          let base : AskTrace :=
            { executedSql := [sqlQuery], llm2Called := true, answer := some answerText,
              errorMsg := none, chartType := none, chartData := none }
          match viz with
          | none => base
          | some v =>
            if truthyStr v.chart_type && truthyStr v.labels && truthyStr v.values then
              let lc := v.labels.getD ""
              let vc := v.values.getD ""
              let labels := queryResults.map (fun row => lookupVal row lc)
              let vals := queryResults.map (fun row => lookupVal row vc)
              if labels.all definedNonNull && vals.all definedNonNull then
                { base with
                    chartType := v.chart_type,
                    chartData := some
                      { labels := labels.map (fun o => o.getD SqlValue.null),
                        dataValues := vals.map (fun o => o.getD SqlValue.null),
                        seriesLabel := vc ++ " by " ++ lc } }
              else
                { base with errorMsg := some chartWarningMsg, chartData := none }
            else base

theorem getRows_setRows_same (ts : Tables) (n : String) (rows : List Row) :
    getRows (setRows ts n rows) n = rows := by
  induction ts with
  | nil => simp [setRows, getRows]
  | cons h t ih =>
    obtain ⟨m, old⟩ := h
    by_cases hm : m = n
    · simp [setRows, getRows, hm]
    · simp [setRows, getRows, hm, ih]

theorem getRows_setRows_other (ts : Tables) (n m : String) (rows : List Row)
    (h : m ≠ n) : getRows (setRows ts n rows) m = getRows ts m := by
  induction ts with
  | nil => simp [setRows, getRows, Ne.symm h]
  | cons hd t ih =>
    obtain ⟨k, old⟩ := hd
    by_cases hk : k = n
    · subst hk; simp [setRows, getRows, Ne.symm h, ih]
    · simp [setRows, getRows, hk, ih]

theorem stmtRun_ok_eq {tableName : String} {cols : List String} {vals : List SqlValue}
    {db db' : DB} (h : stmtRun tableName cols vals db = .ok db') :
    ∃ schemaCols, tableColumns tableName = some schemaCols ∧
      db'.txSnapshot = db.txSnapshot ∧
      db'.tables =
        setRows db.tables tableName
          (getRows db.tables tableName ++ [mkFullRow schemaCols cols vals]) := by
  unfold stmtRun at h
  cases htc : tableColumns tableName with
  | none => rw [htc] at h; cases h
  | some schemaCols =>
    rw [htc] at h
    simp only at h
    split at h
    · cases h
    · refine ⟨schemaCols, rfl, ?_, ?_⟩ <;> (cases h; rfl)

theorem insertLoop_ok {tableName : String} {cols : List String} {schemaCols : List String}
    (htc : tableColumns tableName = some schemaCols) (data : List (List String)) :
    ∀ (db db' : DB),
      insertLoop tableName cols data db = .ok db' →
      db'.txSnapshot = db.txSnapshot ∧
      getRows db'.tables tableName =
        getRows db.tables tableName
          ++ data.map (fun r => mkFullRow schemaCols cols (r.map coerceValue)) ∧
      ∀ t', t' ≠ tableName → getRows db'.tables t' = getRows db.tables t' := by
  induction data with
  | nil =>
    intro db db' h
    simp only [insertLoop] at h
    cases h
    exact ⟨rfl, by simp, fun _ _ => rfl⟩
  | cons r rest ih =>
    intro db db' h
    simp only [insertLoop] at h
    cases hrun : stmtRun tableName cols (r.map coerceValue) db with
    | error m => simp [hrun] at h
    | ok db1 =>
      simp only [hrun] at h
      obtain ⟨sc, hsc, hsnap1, htab1⟩ := stmtRun_ok_eq hrun
      rw [htc] at hsc
      injection hsc with hsc
      subst hsc
      obtain ⟨hsnap, htarget, hother⟩ := ih db1 db' h
      refine ⟨hsnap.trans hsnap1, ?_, ?_⟩
      · rw [htarget, htab1, getRows_setRows_same]
        simp
      · intro t' ht'
        rw [hother t' ht', htab1, getRows_setRows_other _ _ _ _ ht']

theorem insertLoop_err {tableName : String} {cols : List String}
    (data : List (List String)) :
    ∀ (db : DB) (m : String) (dbMid : DB),
      insertLoop tableName cols data db = .error (m, dbMid) →
      dbMid.txSnapshot = db.txSnapshot := by
  induction data with
  | nil => intro db m dbMid h; simp [insertLoop] at h
  | cons r rest ih =>
    intro db m dbMid h
    simp only [insertLoop] at h
    cases hrun : stmtRun tableName cols (r.map coerceValue) db with
    | error m0 =>
      simp only [hrun] at h
      cases h
      rfl
    | ok db1 =>
      simp only [hrun] at h
      obtain ⟨sc, hsc, hsnap1, htab1⟩ := stmtRun_ok_eq hrun
      exact (ih db1 m dbMid h).trans hsnap1

theorem prepareInsert_ok_schema {t : String} {cols : List String}
    (h : prepareInsert t cols = .ok ()) : ∃ sc, tableColumns t = some sc := by
  unfold prepareInsert at h
  cases htc : tableColumns t with
  | none => rw [htc] at h; cases h
  | some sc => exact ⟨sc, rfl⟩

theorem parseAndInsert_fail {csv t : String} {db : DB} {e : IngestError}
    (h : (parseAndInsert csv t db).2 = some e) :
    (parseAndInsert csv t db).1.tables = db.tables := by
  cases hp : papaParse csv with
  | error m => simp [parseAndInsert, hp]
  | ok pr =>
    obtain ⟨header, data⟩ := pr
    simp only [parseAndInsert, hp] at h ⊢
    by_cases hd : data.isEmpty = true
    · simp [hd] at h
    · simp only [hd, if_false] at h ⊢
      cases hprep : prepareInsert t header with
      | error m => simp [hprep, execRollback, execBegin]
      | ok u =>
        cases u
        simp only [hprep] at h ⊢
        cases hins : insertLoop t header data (execBegin db) with
        | error p =>
          obtain ⟨m, dbMid⟩ := p
          have hsn := insertLoop_err data (execBegin db) m dbMid hins
          simp only [execBegin] at hsn
          simp [hins, execRollback, hsn]
        | ok db2 => simp [hins] at h

theorem parseAndInsert_ok_content {csv t : String} {db : DB} {header : List String}
    {data : List (List String)}
    (hp : papaParse csv = .ok (header, data))
    (hok : (parseAndInsert csv t db).2 = none) :
    (data = [] ∧ (parseAndInsert csv t db).1 = db)
    ∨ ∃ schemaCols, tableColumns t = some schemaCols ∧
        (parseAndInsert csv t db).1.txSnapshot = none ∧
        getRows (parseAndInsert csv t db).1.tables t =
          getRows db.tables t
            ++ data.map (fun r => mkFullRow schemaCols header (r.map coerceValue)) ∧
        (∀ t', t' ≠ t → getRows (parseAndInsert csv t db).1.tables t' = getRows db.tables t') := by
  simp only [parseAndInsert, hp] at hok ⊢
  by_cases hd : data.isEmpty = true
  · refine Or.inl ⟨List.isEmpty_iff.mp hd, ?_⟩
    simp [hd]
  · simp only [hd, if_false] at hok ⊢
    cases hprep : prepareInsert t header with
    | error m => simp [hprep] at hok
    | ok u =>
      cases u
      simp only [hprep] at hok ⊢
      cases hins : insertLoop t header data (execBegin db) with
      | error p => obtain ⟨m, dbMid⟩ := p; simp [hins] at hok
      | ok db2 =>
        simp only [hins]
        obtain ⟨sc, hsc⟩ := prepareInsert_ok_schema hprep
        obtain ⟨hsnap, htarget, hother⟩ := insertLoop_ok hsc data (execBegin db) db2 hins
        refine Or.inr ⟨sc, hsc, rfl, ?_, ?_⟩
        · simpa [execCommit, execBegin] using htarget
        · intro t' ht'
          simpa [execCommit, execBegin] using hother t' ht'

theorem parseAndInsert_other {csv t : String} {db : DB} (t' : String) (h : t' ≠ t) :
    getRows (parseAndInsert csv t db).1.tables t' = getRows db.tables t' := by
  cases h2 : (parseAndInsert csv t db).2 with
  | some e => rw [parseAndInsert_fail h2]
  | none =>
    cases hp : papaParse csv with
    | error m =>
      exfalso
      simp [parseAndInsert, hp] at h2
    | ok pr =>
      obtain ⟨header, data⟩ := pr
      rcases parseAndInsert_ok_content hp h2 with ⟨_, heq⟩ | ⟨sc, _, _, _, hother⟩
      · rw [heq]
      · exact hother t' h

/-- Claim C1, counterexample: the source maps the literal text TRUE to the
number 1 even in a non-boolean column. Ingesting TRUE in the text typed
date column of product_total_sales_metrics stores the number 1, not the
text TRUE, refuting the claim that the boolean literal mapping applies
only when the declared column type is boolean. -/
theorem c1_counterexample :
    (parseAndInsert "date,item_id,total_sales,total_units_ordered\nTRUE,P2,5,2"
        "product_total_sales_metrics" ⟨[], none⟩).2 = none
    ∧ getRows (parseAndInsert "date,item_id,total_sales,total_units_ordered\nTRUE,P2,5,2"
        "product_total_sales_metrics" ⟨[], none⟩).1.tables "product_total_sales_metrics"
      = [[SqlValue.num ⟨1, 0⟩, SqlValue.text "P2", SqlValue.num ⟨5, 0⟩, SqlValue.num ⟨2, 0⟩]]
    ∧ SqlValue.num ⟨1, 0⟩ ≠ SqlValue.text "TRUE" := by decide

/-- Claim C1, amended: the per scalar coercion order is: (1) a token whose
uppercasing is TRUE or FALSE maps to 1 or 0 regardless of the declared
column type, (2) else a blank trimmed string maps to null, (3) else a
string passing the finite number test maps to that number, (4) else the
text is kept. -/
theorem c1_coercion_order_amended (v : String) :
    (upperString v = "TRUE" → coerceValue v = .num ⟨1, 0⟩)
    ∧ (upperString v = "FALSE" → coerceValue v = .num ⟨0, 0⟩)
    ∧ (upperString v ≠ "TRUE" → upperString v ≠ "FALSE" → trimString v = "" →
        coerceValue v = .null)
    ∧ (upperString v ≠ "TRUE" → upperString v ≠ "FALSE" → trimString v ≠ "" →
        (∀ q, jsNumValue v = some q → coerceValue v = .num q)
        ∧ (jsNumValue v = none → coerceValue v = .text v)) := by
  refine ⟨?_, ?_, ?_, ?_⟩
  · intro h; simp [coerceValue, h]
  · intro h
    by_cases h1 : upperString v = "TRUE"
    · exact absurd (h1.symm.trans h) (by decide)
    · simp [coerceValue, h1, h]
  · intro h1 h2 h3; simp [coerceValue, h1, h2, h3]
  · intro h1 h2 h3
    constructor
    · intro q hq; simp [coerceValue, h1, h2, h3, hq]
    · intro hq; simp [coerceValue, h1, h2, h3, hq]

/-- Witness for the amended C1 theorem at concrete scalars. -/
theorem c1_coercion_order_amended_witness :
    coerceValue "tRuE" = .num ⟨1, 0⟩ ∧ coerceValue " " = .null
    ∧ coerceValue "42" = .num ⟨42, 0⟩ ∧ coerceValue "abc" = .text "abc" :=
  ⟨(c1_coercion_order_amended "tRuE").1 (by decide),
   (c1_coercion_order_amended " ").2.2.1 (by decide) (by decide) (by decide),
   ((c1_coercion_order_amended "42").2.2.2 (by decide) (by decide) (by decide)).1 _ (by decide),
   ((c1_coercion_order_amended "abc").2.2.2 (by decide) (by decide) (by decide)).2 (by decide)⟩

/-- Claim C2: ingestion of one dataset is transactionally atomic. When the
call rejects, the table store is exactly as before (so the target table
reads the same rows, hence the same row count); when it resolves, the
target table has gained exactly the parsed rows, each coerced per scalar
and completed to the schema columns. -/
theorem c2_ingest_atomicity (csv t : String) (db : DB) :
    ((parseAndInsert csv t db).2.isSome = true →
      (parseAndInsert csv t db).1.tables = db.tables)
    ∧ ((parseAndInsert csv t db).2 = none →
      ∀ header data, papaParse csv = .ok (header, data) →
      ∀ schemaCols, tableColumns t = some schemaCols →
        getRows (parseAndInsert csv t db).1.tables t =
          getRows db.tables t
            ++ data.map (fun r => mkFullRow schemaCols header (r.map coerceValue))) := by
  constructor
  · intro h
    obtain ⟨e, he⟩ := Option.isSome_iff_exists.mp h
    exact parseAndInsert_fail he
  · intro hok header data hp schemaCols hsc
    rcases parseAndInsert_ok_content hp hok with ⟨hdata, heq⟩ | ⟨sc, hsc2, _, htarget, _⟩
    · subst hdata; simp [heq]
    · rw [hsc2] at hsc
      injection hsc with hsc
      subst hsc
      exact htarget

/-- Witness for C2 at a failing ingest (duplicate primary key, rolled
back) and at a succeeding ingest (row appended). -/
theorem c2_ingest_atomicity_witness :
    ((parseAndInsert "date,item_id,total_sales,total_units_ordered\nd,i,1,1\nd,i,2,2"
        "product_total_sales_metrics" ⟨[], none⟩).1.tables = ([] : Tables))
    ∧ (getRows (parseAndInsert "date,item_id,total_sales,total_units_ordered\n2024-01-01,P1,20,4"
        "product_total_sales_metrics" ⟨[], none⟩).1.tables "product_total_sales_metrics"
      = getRows ([] : Tables) "product_total_sales_metrics"
        ++ [["2024-01-01", "P1", "20", "4"]].map
            (fun r => mkFullRow ["date", "item_id", "total_sales", "total_units_ordered"]
              ["date", "item_id", "total_sales", "total_units_ordered"] (r.map coerceValue))) :=
  ⟨(c2_ingest_atomicity "date,item_id,total_sales,total_units_ordered\nd,i,1,1\nd,i,2,2"
      "product_total_sales_metrics" ⟨[], none⟩).1 (by decide),
   (c2_ingest_atomicity "date,item_id,total_sales,total_units_ordered\n2024-01-01,P1,20,4"
      "product_total_sales_metrics" ⟨[], none⟩).2 (by decide)
     ["date", "item_id", "total_sales", "total_units_ordered"]
     [["2024-01-01", "P1", "20", "4"]] rfl
     ["date", "item_id", "total_sales", "total_units_ordered"] rfl⟩

/-- Claim C4: an extracted SQL text containing the sentinel N/A makes
askQuestion type the fixed cannot-answer message without executing any
SQL and without issuing the second LLM request. -/
theorem c4_sentinel_short_circuit (sqlQuery : String)
    (exec : String → Except String (List ResultSet)) (llm2 : Llm2Response)
    (h : jsIncludes (upperString sqlQuery) "N/A" = true) :
    askQuestion (.ok sqlQuery) exec llm2
      = { executedSql := [], llm2Called := false, answer := some cannotAnswerMsg,
          errorMsg := none, chartType := none, chartData := none } := by
  simp [askQuestion, h]

/-- Witness for C4 at the literal sentinel answer. -/
theorem c4_sentinel_short_circuit_witness :
    askQuestion (.ok "-- N/A") (fun _ => .error "never reached") .noCandidates
      = { executedSql := [], llm2Called := false, answer := some cannotAnswerMsg,
          errorMsg := none, chartType := none, chartData := none } :=
  c4_sentinel_short_circuit "-- N/A" (fun _ => .error "never reached") .noCandidates (by decide)

/-- Claim C5: a query executing to an empty result set list is not an
error: askQuestion types the fixed no-results message and never issues
the second LLM request, while an engine error instead sets the error
banner carrying the offending SQL, also without the second request. -/
theorem c5_zero_rows_short_circuit (sqlQuery : String)
    (exec : String → Except String (List ResultSet)) (llm2 : Llm2Response)
    (hna : jsIncludes (upperString sqlQuery) "N/A" = false) :
    (exec sqlQuery = .ok [] →
      askQuestion (.ok sqlQuery) exec llm2
        = { executedSql := [sqlQuery], llm2Called := false, answer := some noResultsMsg,
            errorMsg := none, chartType := none, chartData := none })
    ∧ (∀ m, exec sqlQuery = .error m →
      askQuestion (.ok sqlQuery) exec llm2
        = { executedSql := [sqlQuery], llm2Called := false, answer := none,
            errorMsg := some ("SQL execution error: " ++ m ++ ". Generated SQL: " ++ sqlQuery),
            chartType := none, chartData := none }) := by
  constructor
  · intro hex; simp [askQuestion, hna, hex]
  · intro m hex; simp [askQuestion, hna, hex]

/-- Witness for C5 at a zero-row oracle and at an erroring oracle. -/
theorem c5_zero_rows_short_circuit_witness :
    (askQuestion (.ok "SELECT x FROM y") (fun _ => .ok []) .noCandidates
      = { executedSql := ["SELECT x FROM y"], llm2Called := false,
          answer := some noResultsMsg, errorMsg := none,
          chartType := none, chartData := none })
    ∧ (askQuestion (.ok "SELECT z") (fun _ => .error "no such table: z") .noCandidates
      = { executedSql := ["SELECT z"], llm2Called := false, answer := none,
          errorMsg := some ("SQL execution error: no such table: z. Generated SQL: SELECT z"),
          chartType := none, chartData := none }) :=
  ⟨(c5_zero_rows_short_circuit "SELECT x FROM y" (fun _ => .ok []) .noCandidates (by decide)).1 rfl,
   (c5_zero_rows_short_circuit "SELECT z" (fun _ => .error "no such table: z") .noCandidates
      (by decide)).2 "no such table: z" rfl⟩

/-- Claim C7: a CSV holding only a header row ingests as a successful
no-op: no rejection is raised and the database is returned unchanged, so
the target table keeps exactly its previous rows. -/
theorem c7_header_only_noop (csv t : String) (db : DB) (header : List String)
    (h : papaParse csv = .ok (header, [])) :
    parseAndInsert csv t db = (db, none) := by
  simp [parseAndInsert, h]

/-- Witness for C7 at a concrete header-only CSV. -/
theorem c7_header_only_noop_witness :
    parseAndInsert "eligibility_datetime_utc,item_id,eligibility,message"
      "product_eligibility" ⟨[("product_eligibility", [])], none⟩
      = (⟨[("product_eligibility", [])], none⟩, none) :=
  c7_header_only_noop _ _ _ ["eligibility_datetime_utc", "item_id", "eligibility", "message"]
    rfl

/-- Claim C9: a scalar whose uppercasing is TRUE is stored as 1 and FALSE
as 0 in every column: the coercion consults no declared column type, and
a concrete ingest stores 0 for the token False in the text typed date
column and 1 for the token true in the real typed ad_sales column. -/
theorem c9_true_false_any_column (v : String) :
    ((upperString v = "TRUE" → coerceValue v = .num ⟨1, 0⟩)
      ∧ (upperString v = "FALSE" → coerceValue v = .num ⟨0, 0⟩))
    ∧ getRows (parseAndInsert
        "date,item_id,ad_sales,impressions,ad_spend,clicks,units_sold\nFalse,P9,true,3,4,5,6"
        "product_ad_sales_metrics" ⟨[], none⟩).1.tables "product_ad_sales_metrics"
      = [[SqlValue.num ⟨0, 0⟩, SqlValue.text "P9", SqlValue.num ⟨1, 0⟩,
          SqlValue.num ⟨3, 0⟩, SqlValue.num ⟨4, 0⟩, SqlValue.num ⟨5, 0⟩,
          SqlValue.num ⟨6, 0⟩]] := by
  refine ⟨⟨fun h => by simp [coerceValue, h], fun h => ?_⟩, by decide⟩
  by_cases h1 : upperString v = "TRUE"
  · exact absurd (h1.symm.trans h) (by decide)
  · simp [coerceValue, h1, h]

/-- Witness for C9 at mixed-case boolean literals. -/
theorem c9_true_false_any_column_witness :
    coerceValue "TrUe" = .num ⟨1, 0⟩ ∧ coerceValue "FaLsE" = .num ⟨0, 0⟩ :=
  ⟨(c9_true_false_any_column "TrUe").1.1 (by decide),
   (c9_true_false_any_column "FaLsE").1.2 (by decide)⟩

/-- Claim C10: a header column absent from the target table schema makes
the dynamically built INSERT fail at prepare time: the dataset is
rejected with an insert failure, the transaction is rolled back and the
table store is returned unchanged, so extra columns are rejected rather
than ignored. -/
theorem c10_unknown_column_rejected (csv t : String) (db : DB)
    (header : List String) (data : List (List String)) (c : String)
    (hp : papaParse csv = .ok (header, data)) (hne : data ≠ [])
    (hc : c ∈ header) (hnc : ∀ cols, tableColumns t = some cols → c ∉ cols) :
    ∃ m, parseAndInsert csv t db = (⟨db.tables, none⟩, some (.insertFailure t m)) := by
  simp only [parseAndInsert, hp]
  have hde : data.isEmpty = false := by
    cases data with
    | nil => exact absurd rfl hne
    | cons a l => rfl
  rw [hde]
  simp only [Bool.false_eq_true, if_false]
  cases htc : tableColumns t with
  | none =>
    refine ⟨"no such table: " ++ t, ?_⟩
    simp [prepareInsert, htc, execRollback, execBegin]
  | some cols =>
    have hcne : (header.find? (fun x => !(cols.contains x))).isSome = true := by
      rw [List.find?_isSome]
      exact ⟨c, hc, by simpa using hnc cols htc⟩
    obtain ⟨c2, hc2⟩ := Option.isSome_iff_exists.mp hcne
    refine ⟨"table " ++ t ++ " has no column named " ++ c2, ?_⟩
    simp only [prepareInsert, htc]
    rw [hc2]
    simp [execRollback, execBegin]

/-- Witness for C10 at a CSV with an extra bogus column. -/
theorem c10_unknown_column_rejected_witness :
    ∃ m, parseAndInsert "date,item_id,bogus\n2024-01-01,P1,1"
        "product_total_sales_metrics" ⟨[("product_total_sales_metrics", [])], none⟩
      = (⟨[("product_total_sales_metrics", [])], none⟩,
         some (.insertFailure "product_total_sales_metrics" m)) :=
  c10_unknown_column_rejected "date,item_id,bogus\n2024-01-01,P1,1"
    "product_total_sales_metrics" ⟨[("product_total_sales_metrics", [])], none⟩
    ["date", "item_id", "bogus"] [["2024-01-01", "P1", "1"]] "bogus"
    rfl (by decide) (by decide)
    (fun cols hcols => by
      have h0 : tableColumns "product_total_sales_metrics"
          = some ["date", "item_id", "total_sales", "total_units_ordered"] := rfl
      rw [h0] at hcols
      injection hcols with h1
      subst h1
      decide)

/-- Claim C3, counterexample: a loading pass in which the eligibility
dataset fails to ingest leaves the ready flag true when it was already
true from an earlier successful pass, because the catch branch of
loadDataIntoDB never clears the flag; the claim that any single failure
leaves the system not-ready is therefore false. -/
theorem c3_counterexample :
    let s : AppState :=
      { db := some ⟨[], none⟩,
        productAdSalesCsv :=
          some "date,item_id,ad_sales,impressions,ad_spend,clicks,units_sold\nd1,A,1,2,3,4,5",
        productTotalSalesCsv := some "date,item_id,total_sales,total_units_ordered\nd1,A,6,7",
        productEligibilityCsv := some "eligibility_datetime_utc,item_id,bogus\nd1,A,1",
        isDatabaseReady := true, error := "", dbStatus := "All data loaded successfully!" }
    (loadDataIntoDB s).isDatabaseReady = true
    ∧ (loadDataIntoDB s).dbStatus = "Data loading failed."
    ∧ (loadDataIntoDB s).error
      = "Error loading data: Error inserting data into product_eligibility: table product_eligibility has no column named bogus" := by
  decide

/-- Claim C3, amended: a loading pass sets the ready flag during the pass
only when every one of the three datasets ingests successfully; a failing
pass surfaces the specific ingestion error and the failed status but
leaves the ready flag exactly as it was before the call, so a system that
was not ready stays not-ready while a flag already true from an earlier
successful pass is not cleared. -/
theorem c3_ready_amended (s : AppState) :
    ((loadDataIntoDB s).isDatabaseReady = true →
      s.isDatabaseReady = true ∨
      ∃ db0, s.db = some db0 ∧
        (loadAll db0 (s.productAdSalesCsv.getD "") (s.productTotalSalesCsv.getD "")
          (s.productEligibilityCsv.getD "")).2 = none)
    ∧ (∀ db0 e, s.db = some db0 →
        (truthyStr s.productAdSalesCsv && truthyStr s.productTotalSalesCsv
          && truthyStr s.productEligibilityCsv) = true →
        (loadAll db0 (s.productAdSalesCsv.getD "") (s.productTotalSalesCsv.getD "")
          (s.productEligibilityCsv.getD "")).2 = some e →
        (loadDataIntoDB s).isDatabaseReady = s.isDatabaseReady
        ∧ (loadDataIntoDB s).error = "Error loading data: " ++ ingestErrMsg e
        ∧ (loadDataIntoDB s).dbStatus = "Data loading failed.")
    ∧ (∀ db0, s.db = some db0 →
        (truthyStr s.productAdSalesCsv && truthyStr s.productTotalSalesCsv
          && truthyStr s.productEligibilityCsv) = true →
        (loadAll db0 (s.productAdSalesCsv.getD "") (s.productTotalSalesCsv.getD "")
          (s.productEligibilityCsv.getD "")).2 = none →
        (loadDataIntoDB s).isDatabaseReady = true
        ∧ (loadDataIntoDB s).dbStatus = "All data loaded successfully!") := by
  cases hdb : s.db with
  | none =>
    refine ⟨?_, ?_, ?_⟩
    · intro h
      simp only [loadDataIntoDB, hdb] at h
      exact Or.inl h
    · intro db0 e hdb0
      exact Option.noConfusion hdb0
    · intro db0 hdb0
      exact Option.noConfusion hdb0
  | some db0 =>
    by_cases hg : (truthyStr s.productAdSalesCsv && truthyStr s.productTotalSalesCsv
        && truthyStr s.productEligibilityCsv) = true
    · cases hload : loadAll db0 (s.productAdSalesCsv.getD "") (s.productTotalSalesCsv.getD "")
          (s.productEligibilityCsv.getD "") with
      | mk db1 r =>
        cases r with
        | none =>
          refine ⟨?_, ?_, ?_⟩
          · intro _
            exact Or.inr ⟨db0, rfl, by rw [hload]⟩
          · intro db0x e hdb0 hgx hl
            injection hdb0 with h0
            subst h0
            rw [hload] at hl
            cases hl
          · intro db0x hdb0 hgx hl
            injection hdb0 with h0
            subst h0
            constructor <;> simp [loadDataIntoDB, hdb, hg, hload]
        | some e =>
          refine ⟨?_, ?_, ?_⟩
          · intro h
            simp [loadDataIntoDB, hdb, hg, hload] at h
            exact Or.inl h
          · intro db0x ex hdb0 hgx hl
            injection hdb0 with h0
            subst h0
            rw [hload] at hl
            have hl2 : some e = some ex := hl
            injection hl2 with h1
            subst h1
            refine ⟨?_, ?_, ?_⟩ <;> simp [loadDataIntoDB, hdb, hg, hload]
          · intro db0x hdb0 hgx hl
            injection hdb0 with h0
            subst h0
            rw [hload] at hl
            cases hl
    · refine ⟨?_, ?_, ?_⟩
      · intro h
        simp [loadDataIntoDB, hdb, hg] at h
        exact Or.inl h
      · intro db0x e hdb0 hgx hl
        exact absurd hgx hg
      · intro db0x hdb0 hgx hl
        exact absurd hgx hg

/-- Witness for the amended C3 theorem: a pass failing on the eligibility
dataset leaves a not-ready system not ready with the specific error, and
a fully successful pass sets the flag. -/
theorem c3_ready_amended_witness :
    ((loadDataIntoDB
      { db := some ⟨[], none⟩,
        productAdSalesCsv :=
          some "date,item_id,ad_sales,impressions,ad_spend,clicks,units_sold\nd1,A,1,2,3,4,5",
        productTotalSalesCsv := some "date,item_id,total_sales,total_units_ordered\nd1,A,6,7",
        productEligibilityCsv := some "eligibility_datetime_utc,item_id,bogus\nd1,A,1",
        isDatabaseReady := false, error := "", dbStatus := "" }).isDatabaseReady = false)
    ∧ ((loadDataIntoDB
      { db := some ⟨[], none⟩,
        productAdSalesCsv :=
          some "date,item_id,ad_sales,impressions,ad_spend,clicks,units_sold\nd1,A,1,2,3,4,5",
        productTotalSalesCsv := some "date,item_id,total_sales,total_units_ordered\nd1,A,6,7",
        productEligibilityCsv :=
          some "eligibility_datetime_utc,item_id,eligibility,message\nd1,A,TRUE,ok",
        isDatabaseReady := false, error := "", dbStatus := "" }).isDatabaseReady = true) :=
  ⟨((c3_ready_amended
      { db := some ⟨[], none⟩,
        productAdSalesCsv :=
          some "date,item_id,ad_sales,impressions,ad_spend,clicks,units_sold\nd1,A,1,2,3,4,5",
        productTotalSalesCsv := some "date,item_id,total_sales,total_units_ordered\nd1,A,6,7",
        productEligibilityCsv := some "eligibility_datetime_utc,item_id,bogus\nd1,A,1",
        isDatabaseReady := false, error := "", dbStatus := "" }).2.1 ⟨[], none⟩
      (.insertFailure "product_eligibility"
        "table product_eligibility has no column named bogus")
      rfl (by decide) (by decide)).1,
   ((c3_ready_amended
      { db := some ⟨[], none⟩,
        productAdSalesCsv :=
          some "date,item_id,ad_sales,impressions,ad_spend,clicks,units_sold\nd1,A,1,2,3,4,5",
        productTotalSalesCsv := some "date,item_id,total_sales,total_units_ordered\nd1,A,6,7",
        productEligibilityCsv :=
          some "eligibility_datetime_utc,item_id,eligibility,message\nd1,A,TRUE,ok",
        isDatabaseReady := false, error := "", dbStatus := "" }).2.2 ⟨[], none⟩
      rfl (by decide) (by decide)).1⟩

/-- Claim C6, counterexample: a suggested chart whose label column field is
null is dropped silently: the chart is not rendered but no user-visible
warning is produced, refuting the claim that every non-accepted chart
suggestion produces a warning. The prose answer is still delivered. -/
theorem c6_counterexample :
    let rs : ResultSet := { columns := ["item_id", "total_sales"],
                            values := [[SqlValue.text "A", SqlValue.num ⟨5, 0⟩]] }
    let tr := askQuestion
      (.ok "SELECT item_id, total_sales FROM product_total_sales_metrics")
      (fun _ => .ok [rs])
      (.parsed "Item A sold 5." (some { chart_type := some "bar", labels := none,
                                        values := some "total_sales" }))
    tr.chartData = none ∧ tr.chartType = none ∧ tr.errorMsg = none
    ∧ tr.answer = some "Item A sold 5." := by
  decide

/-- Claim C6, amended: a suggested chart is accepted only when the chart
kind, label column and value column fields are all present (non null and
non empty) and both named columns are present with non null values in
every row of the query result; a suggestion with all three fields present
that fails this column validation is dropped with the user-visible
warning, a suggestion missing the kind or either column field is dropped
silently, and the prose answer is delivered in every one of these cases. -/
theorem c6_chart_validation_amended (sqlQuery : String)
    (exec : String → Except String (List ResultSet)) (rs : ResultSet)
    (rest : List ResultSet) (ans : String) (viz : Option Viz)
    (hna : jsIncludes (upperString sqlQuery) "N/A" = false)
    (hex : exec sqlQuery = .ok (rs :: rest)) :
    (askQuestion (.ok sqlQuery) exec (.parsed ans viz)).answer = some ans
    ∧ ((askQuestion (.ok sqlQuery) exec (.parsed ans viz)).chartData.isSome = true →
        ∃ v, viz = some v
          ∧ truthyStr v.chart_type = true ∧ truthyStr v.labels = true
          ∧ truthyStr v.values = true
          ∧ ((toQueryRows rs).map (fun row => lookupVal row (v.labels.getD ""))).all
              definedNonNull = true
          ∧ ((toQueryRows rs).map (fun row => lookupVal row (v.values.getD ""))).all
              definedNonNull = true)
    ∧ ((askQuestion (.ok sqlQuery) exec (.parsed ans viz)).errorMsg = some chartWarningMsg ↔
        ∃ v, viz = some v
          ∧ truthyStr v.chart_type = true ∧ truthyStr v.labels = true
          ∧ truthyStr v.values = true
          ∧ ¬(((toQueryRows rs).map (fun row => lookupVal row (v.labels.getD ""))).all
                definedNonNull = true
              ∧ ((toQueryRows rs).map (fun row => lookupVal row (v.values.getD ""))).all
                definedNonNull = true)) := by
  cases viz with
  | none =>
    refine ⟨?_, ?_, ?_⟩
    · simp [askQuestion, hna, hex]
    · intro h
      simp [askQuestion, hna, hex] at h
    · constructor
      · intro h
        simp [askQuestion, hna, hex] at h
      · rintro ⟨v, hv, _⟩
        cases hv
  | some v =>
    by_cases h1 : (truthyStr v.chart_type && truthyStr v.labels && truthyStr v.values) = true
    · have ⟨⟨ht1, ht2⟩, ht3⟩ :
          (truthyStr v.chart_type = true ∧ truthyStr v.labels = true)
          ∧ truthyStr v.values = true := by
        simpa [Bool.and_eq_true] using h1
      by_cases h2 :
          (((toQueryRows rs).map (fun row => lookupVal row (v.labels.getD ""))).all
              definedNonNull
            && ((toQueryRows rs).map (fun row => lookupVal row (v.values.getD ""))).all
              definedNonNull) = true
      · have ⟨ha1, ha2⟩ :
            ((toQueryRows rs).map (fun row => lookupVal row (v.labels.getD ""))).all
              definedNonNull = true
            ∧ ((toQueryRows rs).map (fun row => lookupVal row (v.values.getD ""))).all
              definedNonNull = true := by
          simpa [Bool.and_eq_true] using h2
        refine ⟨?_, ?_, ?_⟩
        · simp [askQuestion, hna, hex, h1, h2]
        · intro _
          exact ⟨v, rfl, ht1, ht2, ht3, ha1, ha2⟩
        · constructor
          · intro h
            simp [askQuestion, hna, hex, h1, h2] at h
          · rintro ⟨v2, hv2, _, _, _, hneg⟩
            injection hv2 with hv2
            subst hv2
            exact absurd ⟨ha1, ha2⟩ hneg
      · refine ⟨?_, ?_, ?_⟩
        · simp [askQuestion, hna, hex, h1, h2]
        · intro h
          simp [askQuestion, hna, hex, h1, h2] at h
        · constructor
          · intro _
            refine ⟨v, rfl, ht1, ht2, ht3, ?_⟩
            intro hcontra
            exact h2 (by simp [Bool.and_eq_true, hcontra.1, hcontra.2])
          · intro _
            simp [askQuestion, hna, hex, h1, h2]
    · refine ⟨?_, ?_, ?_⟩
      · simp [askQuestion, hna, hex, h1]
      · intro h
        simp [askQuestion, hna, hex, h1] at h
      · constructor
        · intro h
          simp [askQuestion, hna, hex, h1] at h
        · rintro ⟨v2, hv2, ht1, ht2, ht3, _⟩
          injection hv2 with hv2
          subst hv2
          exact absurd (by simp [Bool.and_eq_true, ht1, ht2, ht3]) h1

/-- Witness for the amended C6 theorem at an accepted chart suggestion. -/
theorem c6_chart_validation_amended_witness :
    (askQuestion (.ok "SELECT item_id, total_sales FROM product_total_sales_metrics")
      (fun _ => .ok [{ columns := ["item_id", "total_sales"],
                       values := [[SqlValue.text "A", SqlValue.num ⟨5, 0⟩]] }])
      (.parsed "Item A sold 5."
        (some { chart_type := some "bar", labels := some "item_id",
                values := some "total_sales" }))).answer = some "Item A sold 5." :=
  (c6_chart_validation_amended
    "SELECT item_id, total_sales FROM product_total_sales_metrics"
    (fun _ => .ok [{ columns := ["item_id", "total_sales"],
                     values := [[SqlValue.text "A", SqlValue.num ⟨5, 0⟩]] }])
    { columns := ["item_id", "total_sales"],
      values := [[SqlValue.text "A", SqlValue.num ⟨5, 0⟩]] } []
    "Item A sold 5."
    (some { chart_type := some "bar", labels := some "item_id",
            values := some "total_sales" })
    (by decide) rfl).1

/-- Claim C8: the loading pass ingests the three datasets strictly in the
fixed order ad sales, total sales, eligibility, each awaited before the
next begins: a rejected earlier dataset ends the pass with exactly that
error so no later dataset is ingested, the tables of the later datasets
read as they did after table creation, and the tables committed by the
earlier successful datasets keep their rows; only when every earlier
dataset succeeded is the next dataset ingested. -/
theorem c8_sequential_ingestion (db : DB) (ad total elig : String) :
    (∀ e, (parseAndInsert ad adTableName
        { db with tables := createAllTables db.tables }).2 = some e →
      loadAll db ad total elig
        = ((parseAndInsert ad adTableName
            { db with tables := createAllTables db.tables }).1, some e)
      ∧ getRows (loadAll db ad total elig).1.tables totalTableName
          = getRows (createAllTables db.tables) totalTableName
      ∧ getRows (loadAll db ad total elig).1.tables eligTableName
          = getRows (createAllTables db.tables) eligTableName)
    ∧ ((parseAndInsert ad adTableName
        { db with tables := createAllTables db.tables }).2 = none →
      ∀ e, (parseAndInsert total totalTableName
          (parseAndInsert ad adTableName
            { db with tables := createAllTables db.tables }).1).2 = some e →
      loadAll db ad total elig
        = ((parseAndInsert total totalTableName
            (parseAndInsert ad adTableName
              { db with tables := createAllTables db.tables }).1).1, some e)
      ∧ getRows (loadAll db ad total elig).1.tables adTableName
          = getRows (parseAndInsert ad adTableName
              { db with tables := createAllTables db.tables }).1.tables adTableName
      ∧ getRows (loadAll db ad total elig).1.tables eligTableName
          = getRows (createAllTables db.tables) eligTableName)
    ∧ ((parseAndInsert ad adTableName
        { db with tables := createAllTables db.tables }).2 = none →
      (parseAndInsert total totalTableName
          (parseAndInsert ad adTableName
            { db with tables := createAllTables db.tables }).1).2 = none →
      loadAll db ad total elig
        = parseAndInsert elig eligTableName
            (parseAndInsert total totalTableName
              (parseAndInsert ad adTableName
                { db with tables := createAllTables db.tables }).1).1) := by
  refine ⟨?_, ?_, ?_⟩
  · intro e he
    have hp1 : parseAndInsert ad adTableName { db with tables := createAllTables db.tables }
        = ((parseAndInsert ad adTableName { db with tables := createAllTables db.tables }).1,
           some e) := by
      rw [← he]
    have hl : loadAll db ad total elig
        = ((parseAndInsert ad adTableName { db with tables := createAllTables db.tables }).1,
           some e) := by
      simp only [loadAll]
      rw [hp1]
    rw [hl]
    refine ⟨rfl, ?_, ?_⟩
    · exact @parseAndInsert_other ad adTableName
        { db with tables := createAllTables db.tables } totalTableName (by decide)
    · exact @parseAndInsert_other ad adTableName
        { db with tables := createAllTables db.tables } eligTableName (by decide)
  · intro hok1 e he
    have hp1 : parseAndInsert ad adTableName { db with tables := createAllTables db.tables }
        = ((parseAndInsert ad adTableName { db with tables := createAllTables db.tables }).1,
           none) := by
      rw [← hok1]
    have hp2 : parseAndInsert total totalTableName
          (parseAndInsert ad adTableName { db with tables := createAllTables db.tables }).1
        = ((parseAndInsert total totalTableName
            (parseAndInsert ad adTableName
              { db with tables := createAllTables db.tables }).1).1, some e) := by
      rw [← he]
    have hl : loadAll db ad total elig
        = ((parseAndInsert total totalTableName
            (parseAndInsert ad adTableName
              { db with tables := createAllTables db.tables }).1).1, some e) := by
      simp only [loadAll]
      conv_lhs => rw [hp1]
      dsimp only
      conv_lhs => rw [hp2]
    rw [hl]
    refine ⟨rfl, ?_, ?_⟩
    · exact @parseAndInsert_other total totalTableName
        (parseAndInsert ad adTableName { db with tables := createAllTables db.tables }).1
        adTableName (by decide)
    · exact (@parseAndInsert_other total totalTableName
        (parseAndInsert ad adTableName { db with tables := createAllTables db.tables }).1
        eligTableName (by decide)).trans
        (@parseAndInsert_other ad adTableName
          { db with tables := createAllTables db.tables } eligTableName (by decide))
  · intro hok1 hok2
    have hp1 : parseAndInsert ad adTableName { db with tables := createAllTables db.tables }
        = ((parseAndInsert ad adTableName { db with tables := createAllTables db.tables }).1,
           none) := by
      rw [← hok1]
    have hp2 : parseAndInsert total totalTableName
          (parseAndInsert ad adTableName { db with tables := createAllTables db.tables }).1
        = ((parseAndInsert total totalTableName
            (parseAndInsert ad adTableName
              { db with tables := createAllTables db.tables }).1).1, none) := by
      rw [← hok2]
    simp only [loadAll]
    conv_lhs => rw [hp1]
    dsimp only
    conv_lhs => rw [hp2]

/-- Witness for C8: with a failing total sales dataset the pass stops
there and the eligibility table reads as right after table creation. -/
theorem c8_sequential_ingestion_witness :
    getRows (loadAll ⟨[], none⟩
        "date,item_id,ad_sales,impressions,ad_spend,clicks,units_sold\nd1,A,1,2,3,4,5"
        "date,item_id,bogus\nd1,A,6"
        "eligibility_datetime_utc,item_id,eligibility,message\nd1,A,TRUE,ok").1.tables
      eligTableName
    = getRows (createAllTables ([] : Tables)) eligTableName :=
  (((c8_sequential_ingestion ⟨[], none⟩
      "date,item_id,ad_sales,impressions,ad_spend,clicks,units_sold\nd1,A,1,2,3,4,5"
      "date,item_id,bogus\nd1,A,6"
      "eligibility_datetime_utc,item_id,eligibility,message\nd1,A,TRUE,ok").2.1
    (by decide)
    (.insertFailure "product_total_sales_metrics"
      "table product_total_sales_metrics has no column named bogus")
    (by decide)).2).2
